import Mathlib

/-!
Verification development for the civic-issue-reporter backend
(`backend_api_gemini.py`, route `POST /api/analyze`).

The handler `analyze_issue` is embedded shallowly:

* JSON values are modelled by the inductive `Json`; the Python standard
  library call `json.loads` is modelled by the executable parser
  `jsonParse` (strings are lists of Unicode code points, numbers keep
  their lexeme, objects keep their member list in order with a
  last-occurrence-wins lookup, matching `dict` construction).
* External collaborators that are not Python-source code available to us
  (the Gemini client `model.generate_content`, `base64.b64decode`,
  `PIL.Image.open`, and the three `datetime.now()` readings) are
  parameters of the pipeline, collected in the structure `Externals`.
* Machine behaviour such as `str.find`/`str.rfind` (`-1` sentinel),
  `str.split(',')[1]`, slices `[:200]`/`[:500]`, and Python truthiness of
  strings is translated on `List Char`.
* The `try/except` structure of the route is an `Except Fail` pipeline
  (`analyze_core`) whose failures are mapped to HTTP-level results
  (`ApiResult`) exactly as the two `except` clauses do: a
  `json.JSONDecodeError` produces the 500 body that carries
  `raw_response`, every other exception produces the plain 500 body.
-/

/-! ## JSON values (model of Python `json.loads` results) -/

/-- A JSON value as produced by Python's `json.loads`.  Strings are lists
of Unicode code points (so `\uXXXX` escapes, including lone surrogates,
are representable); numbers keep their source lexeme (also as code
points), which is enough because the handler only passes numeric values
through unchanged; objects keep their members in source order. -/
inductive Json where
  | null : Json
  | bool (b : Bool) : Json
  | num (lexeme : List Nat) : Json
  | str (codes : List Nat) : Json
  | arr (elems : List Json) : Json
  | obj (members : List (List Nat × Json)) : Json

/-- Code points of a Lean string, used to spell JSON string contents. -/
def jstr (s : String) : List Nat :=
  s.data.map Char.toNat

/-- Whether a JSON value is an object (a Python `dict`). -/
def Json.isObj : Json → Bool
  | Json.obj _ => true
  | _ => false

/-- Python `dict.get(key, default)` on a member list where, as in `dict`
construction from parsed pairs, a later duplicate key overrides an
earlier one. -/
def dictGet : List (List Nat × Json) → List Nat → Json → Json
  | [], _, d => d
  | (k, v) :: rest, key, d => dictGet rest key (if k = key then v else d)

/-! ## The JSON parser (model of `json.loads`)

A fuel-indexed single recursive function; the modes correspond to the
states of Python's scanner: parsing a value, the members of an object
(expecting a key), the elements of an array, or the body of a string.
Python specifics that are modelled: whitespace is exactly
space/tab/LF/CR; `NaN`, `Infinity` and `-Infinity` are accepted;
numbers follow the JSON grammar with the regex backtracking behaviour
(`1.` parses as `1` leaving `.`); strings reject raw control characters
below 0x20 and unknown escapes, and combine `\uXXXX` surrogate pairs
while keeping lone surrogates. -/

def isJsonWs (c : Char) : Bool :=
  c == ' ' || c == '\t' || c == '\n' || c == '\r'

def skipWs (cs : List Char) : List Char :=
  cs.dropWhile isJsonWs

def hexDigitVal (c : Char) : Option Nat :=
  if '0' ≤ c ∧ c ≤ '9' then some (c.toNat - '0'.toNat)
  else if 'a' ≤ c ∧ c ≤ 'f' then some (c.toNat - 'a'.toNat + 10)
  else if 'A' ≤ c ∧ c ≤ 'F' then some (c.toNat - 'A'.toNat + 10)
  else none

def hex4 (a b c d : Char) : Option Nat :=
  match hexDigitVal a, hexDigitVal b, hexDigitVal c, hexDigitVal d with
  | some x, some y, some z, some w => some (((x * 16 + y) * 16 + z) * 16 + w)
  | _, _, _, _ => none

/-- Decode one string escape character (other than `u`). -/
def escCode (e : Char) : Option Nat :=
  if e = '"' then some 34
  else if e = '\\' then some 92
  else if e = '/' then some 47
  else if e = 'b' then some 8
  else if e = 'f' then some 12
  else if e = 'n' then some 10
  else if e = 'r' then some 13
  else if e = 't' then some 9
  else none

/-- Match a literal keyword at the head of the input. -/
def takeLit (lit : List Char) (cs : List Char) : Option (List Char) :=
  if lit.isPrefixOf cs then some (cs.drop lit.length) else none

/-- Parse a JSON number lexeme (after constant keywords were tried),
following Python's `NUMBER_RE`: `-?(0|[1-9][0-9]*)(\.[0-9]+)?([eE][+-]?[0-9]+)?`,
where an unmatched optional group consumes nothing. -/
def parseNumber (cs : List Char) : Option (Json × List Char) :=
  let sign : List Char × List Char :=
    match cs with
    | '-' :: r => (['-'], r)
    | _ => ([], cs)
  match sign.2 with
  | [] => none
  | d :: r1 =>
    if d = '0' then
      some (parseNumberTail (sign.1 ++ ['0']) r1)
    else if d.isDigit then
      let ds := (d :: r1).takeWhile Char.isDigit
      some (parseNumberTail (sign.1 ++ ds) ((d :: r1).dropWhile Char.isDigit))
    else none
where
  parseNumberTail (intPart : List Char) (rest : List Char) : Json × List Char :=
    let fracStep : List Char × List Char :=
      match rest with
      | '.' :: r =>
        let fd := r.takeWhile Char.isDigit
        if fd = [] then ([], rest) else ('.' :: fd, r.dropWhile Char.isDigit)
      | _ => ([], rest)
    let expStep : List Char × List Char :=
      match fracStep.2 with
      | e :: r =>
        if e = 'e' ∨ e = 'E' then
          let signedTail : List Char × List Char :=
            match r with
            | s :: rr => if s = '+' ∨ s = '-' then ([s], rr) else ([], r)
            | [] => ([], r)
          let ed := signedTail.2.takeWhile Char.isDigit
          if ed = [] then ([], fracStep.2)
          else (e :: (signedTail.1 ++ ed), signedTail.2.dropWhile Char.isDigit)
        else ([], fracStep.2)
      | [] => ([], fracStep.2)
    (Json.num ((intPart ++ fracStep.1 ++ expStep.1).map Char.toNat), expStep.2)

/-- Scanner mode: a value, object members (positioned at a key, with the
members accumulated so far), array elements, or a string body. -/
inductive PMode where
  | value : PMode
  | objMember (acc : List (List Nat × Json)) : PMode
  | arrElem (acc : List Json) : PMode
  | strBody (acc : List Nat) : PMode

/-- One fuel-indexed recursive scanner covering all modes; returns the
parsed value together with the unconsumed input. -/
def parseStep : Nat → PMode → List Char → Option (Json × List Char)
  | 0, _, _ => none
  | fuel + 1, PMode.value, cs0 =>
    match skipWs cs0 with
    | [] => none
    | c :: rest =>
      if c = '"' then parseStep fuel (PMode.strBody []) rest
      else if c = '\x7b' then
        match skipWs rest with
        | '\x7d' :: r2 => some (Json.obj [], r2)
        | r => parseStep fuel (PMode.objMember []) r
      else if c = '[' then
        match skipWs rest with
        | ']' :: r2 => some (Json.arr [], r2)
        | r => parseStep fuel (PMode.arrElem []) r
      else
        match takeLit ['t', 'r', 'u', 'e'] (c :: rest) with
        | some r => some (Json.bool true, r)
        | none =>
        match takeLit ['f', 'a', 'l', 's', 'e'] (c :: rest) with
        | some r => some (Json.bool false, r)
        | none =>
        match takeLit ['n', 'u', 'l', 'l'] (c :: rest) with
        | some r => some (Json.null, r)
        | none =>
        match takeLit ['N', 'a', 'N'] (c :: rest) with
        | some r => some (Json.num (jstr "NaN"), r)
        | none =>
        match takeLit ['I', 'n', 'f', 'i', 'n', 'i', 't', 'y'] (c :: rest) with
        | some r => some (Json.num (jstr "Infinity"), r)
        | none =>
        match takeLit ['-', 'I', 'n', 'f', 'i', 'n', 'i', 't', 'y'] (c :: rest) with
        | some r => some (Json.num (jstr "-Infinity"), r)
        | none => parseNumber (c :: rest)
  | fuel + 1, PMode.objMember acc, cs =>
    match cs with
    | '"' :: rest =>
      match parseStep fuel (PMode.strBody []) rest with
      | some (Json.str key, r1) =>
        match skipWs r1 with
        | ':' :: r2 =>
          match parseStep fuel PMode.value r2 with
          | some (v, r3) =>
            match skipWs r3 with
            | ',' :: r4 => parseStep fuel (PMode.objMember (acc ++ [(key, v)])) (skipWs r4)
            | '\x7d' :: r4 => some (Json.obj (acc ++ [(key, v)]), r4)
            | _ => none
          | _ => none
        | _ => none
      | _ => none
    | _ => none
  | fuel + 1, PMode.arrElem acc, cs =>
    match parseStep fuel PMode.value cs with
    | some (v, r1) =>
      match skipWs r1 with
      | ',' :: r2 => parseStep fuel (PMode.arrElem (acc ++ [v])) r2
      | ']' :: r2 => some (Json.arr (acc ++ [v]), r2)
      | _ => none
    | none => none
  | fuel + 1, PMode.strBody acc, cs =>
    match cs with
    | [] => none
    | '"' :: rest => some (Json.str acc, rest)
    | '\\' :: rest =>
      match rest with
      | [] => none
      | 'u' :: r2 =>
        match r2 with
        | h1 :: h2 :: h3 :: h4 :: r3 =>
          match hex4 h1 h2 h3 h4 with
          | none => none
          | some c1 =>
            if 0xD800 ≤ c1 ∧ c1 < 0xDC00 then
              match r3 with
              | '\\' :: 'u' :: g1 :: g2 :: g3 :: g4 :: r4 =>
                match hex4 g1 g2 g3 g4 with
                | some c2 =>
                  if 0xDC00 ≤ c2 ∧ c2 < 0xE000 then
                    parseStep fuel
                      (PMode.strBody (acc ++ [0x10000 + (c1 - 0xD800) * 0x400 + (c2 - 0xDC00)])) r4
                  else parseStep fuel (PMode.strBody (acc ++ [c1])) r3
                | none => parseStep fuel (PMode.strBody (acc ++ [c1])) r3
              | _ => parseStep fuel (PMode.strBody (acc ++ [c1])) r3
            else parseStep fuel (PMode.strBody (acc ++ [c1])) r3
        | _ => none
      | e :: r2 =>
        match escCode e with
        | some n => parseStep fuel (PMode.strBody (acc ++ [n])) r2
        | none => none
    | c :: rest =>
      if c.toNat < 32 then none
      else parseStep fuel (PMode.strBody (acc ++ [c.toNat])) rest

/-- Model of Python `json.loads`: parse one value, then require only
trailing whitespace (otherwise Python raises "Extra data"). -/
def jsonParse (s : String) : Option Json :=
  match parseStep (s.data.length + 4) PMode.value s.data with
  | some (v, rest) => if skipWs rest = [] then some v else none
  | none => none

/-! ## Python string helpers used by the handler -/

/-- Python truthiness of a string: `bool(s)` is `False` exactly for the
empty string. -/
def pyTruthy (s : String) : Bool :=
  !s.isEmpty

/-- Python truthiness of `data.get('image')`: `None` and the empty
string are falsy. -/
def pyTruthyOpt : Option String → Bool
  | none => false
  | some s => pyTruthy s

/-- Python slice `s[:n]` for `n ≥ 0`. -/
def pyTake (s : String) (n : Nat) : String :=
  String.mk (s.data.take n)

/-- Python `str.split(sep)` for a one-character separator: the list of
fields between occurrences of the separator (consecutive separators
yield empty fields; the result is never empty). -/
def pySplitChar (sep : Char) : List Char → List (List Char)
  | [] => [[]]
  | c :: cs =>
    if c = sep then [] :: pySplitChar sep cs
    else
      match pySplitChar sep cs with
      | f :: r => (c :: f) :: r
      | [] => [[c]]

/-- Lines 84-85 of the handler, on code points: if the image string
contains a comma, replace it by `image_data.split(',')[1]` (the field
between the first and the second comma). -/
def pyStripChars (cs : List Char) : List Char :=
  if ',' ∈ cs then (pySplitChar ',' cs).getD 1 [] else cs

/-- The data-URI stripping step applied to the `image` field. -/
def pyImageHeaderStrip (s : String) : String :=
  String.mk (pyStripChars s.data)

/-- Python `str.find(c)` as an optional index of the first occurrence
(the `-1` sentinel becomes `none`). -/
def strFind? (c : Char) : List Char → Option Nat
  | [] => none
  | x :: xs => if x = c then some 0 else (strFind? c xs).map (· + 1)

/-- Python `str.rfind(c)` as an optional index of the last occurrence. -/
def strRfind? (c : Char) (cs : List Char) : Option Nat :=
  match strFind? c cs.reverse with
  | none => none
  | some k => some (cs.length - 1 - k)

/-- Lines 110-113 of the handler: locate the first `{` and the last `}`;
when `json_start != -1 and json_end > json_start` (with
`json_end = rfind + 1`), keep the slice `[json_start:json_end]`,
otherwise keep the raw text. -/
def extractCandidate (s : String) : String :=
  match strFind? '\x7b' s.data, strRfind? '\x7d' s.data with
  | some json_start, some jlast =>
    if jlast + 1 > json_start then
      String.mk ((s.data.drop json_start).take (jlast + 1 - json_start))
    else s
  | _, _ => s

/-! ## The request pipeline -/

/-- The instruction template `ANALYSIS_PROMPT` of the source, verbatim. -/
def ANALYSIS_PROMPT : String :=
  "You are an AI assistant for a civic issue reporting system in Pakistan. \nAnalyze the provided image and/or description of a public infrastructure problem.\n\nYour task:\n1. Classify the type of issue (Road Infrastructure, Water & Sanitation, Electrical, Waste Management, etc.)\n2. Assess severity level (critical, high, medium, low)\n3. Determine urgency (Emergency/Immediate/Priority/Monitor)\n4. Identify safety warnings\n5. Recommend specific actions for municipal authorities\n6. Assign to appropriate department\n\nRespond ONLY with a valid JSON object in this exact format:\n\x7b\n  \"issue_classification\": \x7b\n    \"type\": \"string - category of issue\",\n    \"severity\": \"critical/high/medium/low\",\n    \"urgency\": \"string - when action needed\"\n  \x7d,\n  \"ai_analysis\": \x7b\n    \"detected_elements\": [\"array of visual/textual observations\"],\n    \"risk_level\": \"critical/high/medium/low\",\n    \"estimated_impact\": \"string - who/what is affected\"\n  \x7d,\n  \"recommended_actions\": [\"array of specific action items\"],\n  \"safety_warnings\": [\"array of safety concerns\"],\n  \"priority_score\": number (0-100),\n  \"assigned_department\": \"string - which government department\",\n  \"reasoning\": \"brief explanation of your analysis\"\n\x7d\n\nConsider Pakistani context: common infrastructure issues, local government departments (WASA, CDA, LDA, etc.), and urgent safety concerns."

/-- The JSON body of `POST /api/analyze`: `data.get('description', '')`
and `data.get('image')`. -/
structure RequestData where
  description : String
  image : Option String

/-- One element of the `gemini_parts` list: the prompt text or a decoded
image. -/
inductive PromptPart (Img : Type) where
  | text (s : String) : PromptPart Img
  | image (i : Img) : PromptPart Img

/-- The fixed `generation_config` dictionary of the call. -/
structure GenConfig where
  temperature : Rat
  top_p : Rat
  top_k : Nat
  max_output_tokens : Nat

def generation_config : GenConfig :=
  ⟨4 / 10, 95 / 100, 40, 2048⟩

/-- External collaborators of the handler, abstracted: `base64.b64decode`
(`none` models a raised `binascii.Error`), `PIL.Image.open` (`none`
models any raised image error), `model.generate_content(...).text`
(`none` models any raised Gemini-client error), and the three
`datetime.now()` readings in source order (the `strftime` one for
`report_id`, then the two `isoformat()` ones). -/
structure Externals (Img : Type) where
  b64decode : String → Option (List Nat)
  imageOpen : List Nat → Option Img
  generate : GenConfig → List (PromptPart Img) → Option String
  nowCompact : String
  nowIso1 : String
  nowIso2 : String

/-- The `location` object of the report. -/
structure Location where
  description : String
  coordinates : Option Json

/-- The complete report dictionary built at lines 118-136. -/
structure Report where
  report_id : String
  timestamp : String
  issue_classification : Json
  location : Location
  ai_analysis : Json
  recommended_actions : Json
  safety_warnings : Json
  priority_score : Json
  assigned_department : Json
  citizen_description : String
  ai_reasoning : Json
  status : String
  created_at : String
  ai_model : String

/-- Lines 118-136: normalize the parsed object into the report record,
with the documented default for every absent key. -/
def buildReport {Img : Type} (ext : Externals Img) (description : String)
    (analysis : List (List Nat × Json)) : Report :=
  ⟨"CIV-" ++ ext.nowCompact,
   ext.nowIso1,
   dictGet analysis (jstr "issue_classification") (Json.obj []),
   ⟨pyTake description 200, none⟩,
   dictGet analysis (jstr "ai_analysis") (Json.obj []),
   dictGet analysis (jstr "recommended_actions") (Json.arr []),
   dictGet analysis (jstr "safety_warnings") (Json.arr []),
   dictGet analysis (jstr "priority_score") (Json.num (jstr "50")),
   dictGet analysis (jstr "assigned_department") (Json.str (jstr "Municipal Services")),
   description,
   dictGet analysis (jstr "reasoning") (Json.str []),
   "submitted",
   ext.nowIso2,
   "Gemini 2.0 Flash"⟩

/-- The ways the body of the `try` block can raise, by raising site. -/
inductive Fail where
  | imageDecodeError : Fail
  | modelInvocationError : Fail
  | malformedAIResponse (candidate : String) : Fail
  | attributeError : Fail

/-- Lines 72-93: build `gemini_parts` (prompt text, then the decoded
image when a truthy image string was supplied). -/
def buildPromptParts {Img : Type} (ext : Externals Img) (req : RequestData) :
    Except Fail (List (PromptPart Img)) :=
  let prompt_text :=
    if pyTruthy req.description then
      ANALYSIS_PROMPT ++ "\n\nCitizen\x27s description: " ++ req.description
    else ANALYSIS_PROMPT
  match req.image with
  | none => Except.ok [PromptPart.text prompt_text]
  | some image_data =>
    if pyTruthy image_data then
      match ext.b64decode (pyImageHeaderStrip image_data) with
      | none => Except.error Fail.imageDecodeError
      | some image_bytes =>
        match ext.imageOpen image_bytes with
        | none => Except.error Fail.imageDecodeError
        | some image => Except.ok [PromptPart.text prompt_text, PromptPart.image image]
    else Except.ok [PromptPart.text prompt_text]

/-- The body of the `try` block after validation: build the parts, call
the model, extract and parse the JSON candidate, look up the fields of
the parsed dictionary (a non-dict value raises `AttributeError` at the
first `.get`). -/
def analyze_core {Img : Type} (ext : Externals Img) (req : RequestData) :
    Except Fail Report :=
  match buildPromptParts ext req with
  | Except.error e => Except.error e
  | Except.ok gemini_parts =>
    match ext.generate generation_config gemini_parts with
    | none => Except.error Fail.modelInvocationError
    | some raw =>
      match jsonParse (extractCandidate raw) with
      | none => Except.error (Fail.malformedAIResponse (extractCandidate raw))
      | some analysis =>
        match analysis with
        | Json.obj kvs => Except.ok (buildReport ext req.description kvs)
        | _ => Except.error Fail.attributeError

/-- The possible HTTP responses of the route: the 200 report, the 400
validation error, the 500 body with the `raw_response` diagnostic
(`except json.JSONDecodeError`), and the plain 500 body
(`except Exception`). -/
inductive ApiResult where
  | ok (report : Report) : ApiResult
  | badRequest (error : String) : ApiResult
  | jsonError (error : String) (raw_response : String) : ApiResult
  | genericError (error : String) : ApiResult

/-- The two `except` clauses: `json.JSONDecodeError` returns the body
with `raw_response = ai_response[:500]` where `ai_response` is the
current (possibly re-assigned, i.e. extracted) candidate text; every
other exception returns the plain error body.  The dynamic part of the
Python message (`str(e)`) is not modelled. -/
def failToResult : Fail → ApiResult
  | Fail.malformedAIResponse candidate =>
    ApiResult.jsonError "Failed to parse AI response" (pyTake candidate 500)
  | _ => ApiResult.genericError "Error"

/-- The full handler `analyze_issue` (lines 57-143). -/
def analyze_issue {Img : Type} (ext : Externals Img) (req : RequestData) : ApiResult :=
  if !pyTruthy req.description && !pyTruthyOpt req.image then
    ApiResult.badRequest "Please provide description or image"
  else
    match analyze_core ext req with
    | Except.ok report => ApiResult.ok report
    | Except.error e => failToResult e

/-- The HTTP status code each result is returned with. -/
def statusOf : ApiResult → Nat
  | ApiResult.ok _ => 200
  | ApiResult.badRequest _ => 400
  | ApiResult.jsonError _ _ => 500
  | ApiResult.genericError _ => 500

/-! ## Spec-side characterizations and helper lemmas -/

/-- Index `i` is the first occurrence of `c` in `cs`. -/
abbrev isFirstOccAt (cs : List Char) (c : Char) (i : Nat) : Prop :=
  cs[i]? = some c ∧ ∀ k, k < i → cs[k]? ≠ some c

/-- Index `j` is the last occurrence of `c` in `cs`. -/
abbrev isLastOccAt (cs : List Char) (c : Char) (j : Nat) : Prop :=
  cs[j]? = some c ∧ ∀ k, k < cs.length → j < k → cs[k]? ≠ some c

lemma strFind?_of {c : Char} {cs : List Char} {i : Nat}
    (h1 : cs[i]? = some c) (h2 : ∀ k, k < i → cs[k]? ≠ some c) :
    strFind? c cs = some i := by
  induction cs generalizing i with
  | nil => simp at h1
  | cons x xs ih =>
    by_cases hx : x = c
    · cases i with
      | zero => simp [strFind?, hx]
      | succ n =>
        exact absurd (h2 0 (Nat.succ_pos n)) (by simp [hx])
    · cases i with
      | zero =>
        simp only [List.getElem?_cons_zero, Option.some.injEq] at h1
        exact absurd h1 hx
      | succ n =>
        have htail : strFind? c xs = some n := by
          refine ih (by simpa using h1) ?_
          intro k hk
          have := h2 (k + 1) (by omega)
          simpa using this
        simp only [strFind?, if_neg hx, htail]
        rfl

lemma strFind?_none_of {c : Char} {cs : List Char} (h : c ∉ cs) :
    strFind? c cs = none := by
  induction cs with
  | nil => rfl
  | cons x xs ih =>
    have hx : x ≠ c := fun hxc => h (by simp [hxc])
    have htail : strFind? c xs = none := ih (fun hm => h (List.mem_cons_of_mem _ hm))
    simp [strFind?, if_neg hx, htail]

lemma getElem?_lt_length {cs : List Char} {j : Nat} {c : Char}
    (h : cs[j]? = some c) : j < cs.length := by
  by_contra hge
  rw [List.getElem?_eq_none (by omega)] at h
  exact absurd h (by simp)

lemma strRfind?_of {c : Char} {cs : List Char} {j : Nat}
    (h : isLastOccAt cs c j) : strRfind? c cs = some j := by
  obtain ⟨hj, hall⟩ := h
  have hjlen : j < cs.length := getElem?_lt_length hj
  have hrev : strFind? c cs.reverse = some (cs.length - 1 - j) := by
    refine strFind?_of ?_ ?_
    · rw [List.getElem?_reverse (by omega : cs.length - 1 - j < cs.length)]
      have heq : cs.length - 1 - (cs.length - 1 - j) = j := by omega
      rw [heq]; exact hj
    · intro m hm
      have hmlen : m < cs.length := by omega
      rw [List.getElem?_reverse hmlen]
      exact hall (cs.length - 1 - m) (by omega) (by omega)
  unfold strRfind?
  rw [hrev]
  show some (cs.length - 1 - (cs.length - 1 - j)) = some j
  have : cs.length - 1 - (cs.length - 1 - j) = j := by omega
  rw [this]

lemma strRfind?_none_of {c : Char} {cs : List Char} (h : c ∉ cs) :
    strRfind? c cs = none := by
  have hrev : c ∉ cs.reverse := by simpa using h
  unfold strRfind?
  rw [strFind?_none_of hrev]

lemma dictGet_of_absent : ∀ (a : List (List Nat × Json)) (k : List Nat) (d : Json),
    (∀ p ∈ a, p.1 ≠ k) → dictGet a k d = d := by
  intro a k
  induction a with
  | nil => intro d h; rfl
  | cons p rest ih =>
    intro d h
    obtain ⟨k0, v0⟩ := p
    have hp : k0 ≠ k := h (k0, v0) (by simp)
    simp only [dictGet]
    rw [if_neg hp]
    exact ih d (fun q hq => h q (List.mem_cons_of_mem _ hq))

lemma pySplitChar_append (a b : List Char) (ha : ',' ∉ a) :
    pySplitChar ',' (a ++ ',' :: b) = a :: pySplitChar ',' b := by
  induction a with
  | nil => simp [pySplitChar]
  | cons x xs ih =>
    have hx : x ≠ ',' := fun h => ha (by simp [h])
    have ha' : (',' : Char) ∉ xs := fun h => ha (List.mem_cons_of_mem _ h)
    show (if x = ',' then [] :: pySplitChar ',' (xs ++ ',' :: b)
          else match pySplitChar ',' (xs ++ ',' :: b) with
               | f :: r => (x :: f) :: r
               | [] => [[x]]) = (x :: xs) :: pySplitChar ',' b
    rw [if_neg hx, ih ha']

lemma pySplitChar_head (b : List Char) :
    ∃ r, pySplitChar ',' b = (b.takeWhile (fun c => c != ',')) :: r := by
  induction b with
  | nil => exact ⟨[], rfl⟩
  | cons x xs ih =>
    by_cases hx : x = ','
    · subst hx
      refine ⟨pySplitChar ',' xs, ?_⟩
      simp [pySplitChar, List.takeWhile]
    · obtain ⟨r, hr⟩ := ih
      refine ⟨r, ?_⟩
      have hxb : (x != ',') = true := by simp [hx]
      simp only [pySplitChar, if_neg hx, hr, List.takeWhile_cons, hxb]
      simp

lemma analyze_issue_past_validation {Img : Type} (ext : Externals Img) (req : RequestData)
    (hval : (pyTruthy req.description || pyTruthyOpt req.image) = true) :
    analyze_issue ext req =
      (match analyze_core ext req with
       | Except.ok report => ApiResult.ok report
       | Except.error e => failToResult e) := by
  unfold analyze_issue
  have hcond : (!pyTruthy req.description && !pyTruthyOpt req.image) = false := by
    rw [← Bool.not_or, hval]; rfl
  rw [hcond]
  rfl

lemma analyze_core_ok_shape {Img : Type} (ext : Externals Img) (req : RequestData)
    (r : Report) (h : analyze_core ext req = Except.ok r) :
    ∃ kvs, r = buildReport ext req.description kvs := by
  unfold analyze_core at h
  split at h
  · exact absurd h (by simp)
  · split at h
    · exact absurd h (by simp)
    · split at h
      · exact absurd h (by simp)
      · split at h
        · rename_i kvs heq
          refine ⟨kvs, ?_⟩
          injection h with h
          exact h.symm
        · exact absurd h (by simp)

/-! ## Concrete instantiations of the external collaborators -/

/-- Externals whose calls all fail (no image decoding, no model reply);
only the timestamps are fixed. -/
def extDemo : Externals Unit :=
  ⟨fun _ => none, fun _ => none, fun _ _ => none,
   "20260207120000", "2026-02-07T12:00:00", "2026-02-07T12:00:01"⟩

/-- Externals for a fully successful run: the image decodes, and the
model replies with the empty JSON object. -/
def extOk : Externals Unit :=
  ⟨fun _ => some [], fun _ => some (), fun _ _ => some "\x7b\x7d",
   "20260207120000", "2026-02-07T12:00:00", "2026-02-07T12:00:01"⟩

/-- Externals whose model reply is prose around a malformed object:
the candidate after extraction differs from the raw text. -/
def extRawX : Externals Unit :=
  ⟨fun _ => none, fun _ => none, fun _ _ => some "X\x7ba\x7d",
   "20260207120000", "2026-02-07T12:00:00", "2026-02-07T12:00:01"⟩

/-- Externals where base64 decoding succeeds but image parsing fails. -/
def extImgFail : Externals Unit :=
  ⟨fun _ => some [], fun _ => none, fun _ _ => some "\x7b\x7d",
   "20260207120000", "2026-02-07T12:00:00", "2026-02-07T12:00:01"⟩

/-- Externals whose base64 decoder accepts exactly the string "b,c":
a probe for which substring of the image field reaches the decoder. -/
def extCommaProbe : Externals Unit :=
  ⟨fun t => if t = "b,c" then some [] else none, fun _ => some (),
   fun _ _ => some "\x7b\x7d",
   "20260207120000", "2026-02-07T12:00:00", "2026-02-07T12:00:01"⟩

/-- Externals whose model reply is a top-level JSON array. -/
def extRawArr : Externals Unit :=
  ⟨fun _ => none, fun _ => none, fun _ _ => some "[1]",
   "20260207120000", "2026-02-07T12:00:00", "2026-02-07T12:00:01"⟩

/-! ## The claims -/

/-- C1: if the response text has a first `{` at index `i` and a last `}`
at index `j` with `i < j`, the extractor keeps exactly the inclusive
substring from `i` to `j`; if the last `}` precedes the first `{`
(`i = j` is impossible since the characters differ), or one of the two
braces is missing, the raw text passes through unchanged. -/
theorem extractor_first_brace_to_last_brace (s : String) :
    (∀ i j, isFirstOccAt s.data '\x7b' i → isLastOccAt s.data '\x7d' j → i < j →
      extractCandidate s = String.mk ((s.data.drop i).take (j + 1 - i)))
    ∧ (∀ i j, isFirstOccAt s.data '\x7b' i → isLastOccAt s.data '\x7d' j → j < i →
      extractCandidate s = s)
    ∧ ((('\x7b' : Char) ∉ s.data ∨ ('\x7d' : Char) ∉ s.data) → extractCandidate s = s) := by
  refine ⟨?_, ?_, ?_⟩
  · intro i j hf hl hij
    have hfi : strFind? '\x7b' s.data = some i := strFind?_of hf.1 hf.2
    have hlj : strRfind? '\x7d' s.data = some j := strRfind?_of hl
    unfold extractCandidate
    rw [hfi, hlj]
    show (if j + 1 > i then String.mk ((s.data.drop i).take (j + 1 - i)) else s) = _
    rw [if_pos (by omega)]
  · intro i j hf hl hji
    have hfi : strFind? '\x7b' s.data = some i := strFind?_of hf.1 hf.2
    have hlj : strRfind? '\x7d' s.data = some j := strRfind?_of hl
    unfold extractCandidate
    rw [hfi, hlj]
    show (if j + 1 > i then String.mk ((s.data.drop i).take (j + 1 - i)) else s) = s
    rw [if_neg (by omega)]
  · intro h
    rcases h with h | h
    · have hfi := strFind?_none_of h
      cases hr : strRfind? '\x7d' s.data with
      | none => unfold extractCandidate; rw [hfi, hr]
      | some j => unfold extractCandidate; rw [hfi, hr]
    · have hrj := strRfind?_none_of h
      cases hf : strFind? '\x7b' s.data with
      | none => unfold extractCandidate; rw [hf, hrj]
      | some i => unfold extractCandidate; rw [hf, hrj]

/-- C1 witness: on `"a{b}c"` the extractor keeps the slice from index 1
to index 3 inclusive, i.e. `"{b}"`. -/
theorem extractor_first_brace_to_last_brace_witness :
    extractCandidate "a\x7bb\x7dc" = String.mk ((("a\x7bb\x7dc" : String).data.drop 1).take 3) :=
  (extractor_first_brace_to_last_brace "a\x7bb\x7dc").1 1 3 (by decide) (by decide) (by decide)

/-- C2: for every parsed object, whatever subset of AI-payload keys it
carries (in particular the empty object), the normalizer produces the
report with every documented field populated: each AI-derived field
whose key is absent resolves to its documented default — per field,
independently of the presence of the other keys — and the
request/clock-derived fields always carry their fixed values.  `Report`
is a closed structure, so every documented field is always present. -/
theorem normalizer_fills_defaults {Img : Type} (ext : Externals Img) (d : String)
    (a : List (List Nat × Json)) :
    ((∀ p ∈ a, p.1 ≠ jstr "issue_classification") →
      (buildReport ext d a).issue_classification = Json.obj [])
    ∧ ((∀ p ∈ a, p.1 ≠ jstr "ai_analysis") →
      (buildReport ext d a).ai_analysis = Json.obj [])
    ∧ ((∀ p ∈ a, p.1 ≠ jstr "recommended_actions") →
      (buildReport ext d a).recommended_actions = Json.arr [])
    ∧ ((∀ p ∈ a, p.1 ≠ jstr "safety_warnings") →
      (buildReport ext d a).safety_warnings = Json.arr [])
    ∧ ((∀ p ∈ a, p.1 ≠ jstr "priority_score") →
      (buildReport ext d a).priority_score = Json.num (jstr "50"))
    ∧ ((∀ p ∈ a, p.1 ≠ jstr "assigned_department") →
      (buildReport ext d a).assigned_department = Json.str (jstr "Municipal Services"))
    ∧ ((∀ p ∈ a, p.1 ≠ jstr "reasoning") →
      (buildReport ext d a).ai_reasoning = Json.str [])
    ∧ (buildReport ext d a).report_id = "CIV-" ++ ext.nowCompact
    ∧ (buildReport ext d a).timestamp = ext.nowIso1
    ∧ (buildReport ext d a).location = ⟨pyTake d 200, none⟩
    ∧ (buildReport ext d a).citizen_description = d
    ∧ (buildReport ext d a).status = "submitted"
    ∧ (buildReport ext d a).created_at = ext.nowIso2
    ∧ (buildReport ext d a).ai_model = "Gemini 2.0 Flash" := by
  refine ⟨?_, ?_, ?_, ?_, ?_, ?_, ?_, rfl, rfl, rfl, rfl, rfl, rfl, rfl⟩ <;>
    exact fun h => dictGet_of_absent a _ _ h

/-- C2 witness: the full-default report from the empty parsed object,
and, for a mixed-presence object carrying only `priority_score`, the
defaulting of two of the still-absent fields. -/
theorem normalizer_fills_defaults_witness :
    (buildReport extDemo "road damage" []).issue_classification = Json.obj []
    ∧ (buildReport extDemo "road damage" []).ai_analysis = Json.obj []
    ∧ (buildReport extDemo "road damage" []).recommended_actions = Json.arr []
    ∧ (buildReport extDemo "road damage" []).safety_warnings = Json.arr []
    ∧ (buildReport extDemo "road damage" []).priority_score = Json.num (jstr "50")
    ∧ (buildReport extDemo "road damage" []).assigned_department
      = Json.str (jstr "Municipal Services")
    ∧ (buildReport extDemo "road damage" []).ai_reasoning = Json.str []
    ∧ (buildReport extDemo "road damage"
        [(jstr "priority_score", Json.num (jstr "77"))]).assigned_department
      = Json.str (jstr "Municipal Services")
    ∧ (buildReport extDemo "road damage"
        [(jstr "priority_score", Json.num (jstr "77"))]).ai_reasoning = Json.str [] :=
  ⟨(normalizer_fills_defaults extDemo "road damage" []).1 (by simp),
   (normalizer_fills_defaults extDemo "road damage" []).2.1 (by simp),
   (normalizer_fills_defaults extDemo "road damage" []).2.2.1 (by simp),
   (normalizer_fills_defaults extDemo "road damage" []).2.2.2.1 (by simp),
   (normalizer_fills_defaults extDemo "road damage" []).2.2.2.2.1 (by simp),
   (normalizer_fills_defaults extDemo "road damage" []).2.2.2.2.2.1 (by simp),
   (normalizer_fills_defaults extDemo "road damage" []).2.2.2.2.2.2.1 (by simp),
   (normalizer_fills_defaults extDemo "road damage"
     [(jstr "priority_score", Json.num (jstr "77"))]).2.2.2.2.2.1 (by decide),
   (normalizer_fills_defaults extDemo "road damage"
     [(jstr "priority_score", Json.num (jstr "77"))]).2.2.2.2.2.2.1 (by decide)⟩

/-- C3 counterexample: with model reply `"X{a}"` the candidate after
extraction is `"{a}"`, parsing fails, and the attached `raw_response`
diagnostic is `"{a}"` — not the first 500 characters of the raw,
unextracted reply `"X{a}"`, because line 113 re-assigns `ai_response`
before `json.loads` raises. -/
theorem parse_failure_diagnostic_not_raw :
    analyze_issue extRawX ⟨"pothole", none⟩ =
      ApiResult.jsonError "Failed to parse AI response" "\x7ba\x7d"
    ∧ ("\x7ba\x7d" : String) ≠ pyTake "X\x7ba\x7d" 500 :=
  ⟨rfl, by decide⟩

/-- C3 (amended): when JSON parsing of the candidate fails, the request
fails with the `MalformedAIResponse` 500 body whose diagnostic is the
first at most 500 characters of the CANDIDATE text — the extracted
substring when extraction rewrote the response, which coincides with the
raw text only when no extraction happened — and the diagnostic length is
bounded by 500. -/
theorem parse_failure_diagnostic_is_candidate {Img : Type} (ext : Externals Img)
    (req : RequestData) (parts : List (PromptPart Img)) (raw : String)
    (hval : (pyTruthy req.description || pyTruthyOpt req.image) = true)
    (hparts : buildPromptParts ext req = Except.ok parts)
    (hgen : ext.generate generation_config parts = some raw)
    (hparse : jsonParse (extractCandidate raw) = none) :
    analyze_issue ext req =
      ApiResult.jsonError "Failed to parse AI response" (pyTake (extractCandidate raw) 500)
    ∧ (pyTake (extractCandidate raw) 500).data.length ≤ 500 := by
  constructor
  · rw [analyze_issue_past_validation ext req hval]
    have hcore : analyze_core ext req
        = Except.error (Fail.malformedAIResponse (extractCandidate raw)) := by
      simp only [analyze_core, hparts, hgen, hparse]
    rw [hcore]
    rfl
  · show ((extractCandidate raw).data.take 500).length ≤ 500
    exact List.length_take_le _ _

/-- C3 (amended) witness: the concrete malformed-reply run. -/
theorem parse_failure_diagnostic_is_candidate_witness :
    analyze_issue extRawX ⟨"road", none⟩ =
      ApiResult.jsonError "Failed to parse AI response"
        (pyTake (extractCandidate "X\x7ba\x7d") 500)
    ∧ (pyTake (extractCandidate "X\x7ba\x7d") 500).data.length ≤ 500 :=
  parse_failure_diagnostic_is_candidate extRawX ⟨"road", none⟩
    [PromptPart.text (ANALYSIS_PROMPT ++ "\n\nCitizen\x27s description: " ++ "road")]
    "X\x7ba\x7d" rfl rfl rfl rfl

/-- C4: the request is rejected with the 400 error body exactly when
both the description and the image are absent or empty (Python
truthiness); when at least one is present and non-empty the response is
never the 400 validation error. -/
theorem validator_rejects_iff_both_empty {Img : Type} (ext : Externals Img)
    (req : RequestData) :
    ((pyTruthy req.description = false ∧ pyTruthyOpt req.image = false) →
      analyze_issue ext req = ApiResult.badRequest "Please provide description or image"
      ∧ statusOf (analyze_issue ext req) = 400)
    ∧ ((pyTruthy req.description = true ∨ pyTruthyOpt req.image = true) →
      statusOf (analyze_issue ext req) ≠ 400) := by
  constructor
  · rintro ⟨h1, h2⟩
    have hbad : analyze_issue ext req
        = ApiResult.badRequest "Please provide description or image" := by
      unfold analyze_issue
      rw [h1, h2]
      rfl
    exact ⟨hbad, by rw [hbad]; rfl⟩
  · intro hor
    have hval : (pyTruthy req.description || pyTruthyOpt req.image) = true := by
      rcases hor with h | h <;> simp [h]
    rw [analyze_issue_past_validation ext req hval]
    cases hc : analyze_core ext req with
    | ok r => simp [statusOf]
    | error e => cases e <;> simp [failToResult, statusOf]

/-- C4 witness: the empty request is rejected with 400; a request with a
non-empty description is not. -/
theorem validator_rejects_iff_both_empty_witness :
    analyze_issue extDemo ⟨"", none⟩ = ApiResult.badRequest "Please provide description or image"
    ∧ statusOf (analyze_issue extDemo ⟨"d", none⟩) ≠ 400 :=
  ⟨((validator_rejects_iff_both_empty extDemo ⟨"", none⟩).1 ⟨rfl, rfl⟩).1,
   (validator_rejects_iff_both_empty extDemo ⟨"d", none⟩).2 (Or.inl rfl)⟩

/-- C5 counterexample: on the image string `"a,b,c"` the decoder strips
to `"b"` — the field between the first and second comma — not to the
entire remainder `"b,c"` after the first comma, because
`image_data.split(',')[1]` keeps only the second field; consequently a
pipeline whose base64 decoder accepts exactly `"b,c"` fails instead of
decoding. -/
theorem image_decoder_drops_after_second_comma :
    pyImageHeaderStrip "a,b,c" = "b"
    ∧ ("b" : String) ≠ "b,c"
    ∧ analyze_issue extCommaProbe ⟨"", some "a,b,c"⟩ = ApiResult.genericError "Error" :=
  ⟨rfl, by decide, rfl⟩

/-- C5 (amended): for an image string with a comma-free head `a` before
its first comma, the decoder hands to base64 decoding the portion after
the first comma only up to (and excluding) the next comma, if any — the
whole remainder exactly when the remainder has no further comma. -/
theorem image_decoder_takes_field_between_commas (a b : List Char)
    (ha : (',' : Char) ∉ a) :
    pyStripChars (a ++ ',' :: b) = b.takeWhile (fun c => c != ',') := by
  unfold pyStripChars
  rw [if_pos (by simp : (',' : Char) ∈ a ++ ',' :: b)]
  rw [pySplitChar_append a b ha]
  obtain ⟨r, hr⟩ := pySplitChar_head b
  rw [hr]
  rfl

/-- C5 (amended) witness: a standard data-URI head with a comma-free
payload is stripped to the payload itself. -/
theorem image_decoder_takes_field_between_commas_witness :
    ((',' : Char) ∉ ("data:image/png;base64" : String).data)
    ∧ pyStripChars (("data:image/png;base64" : String).data ++ ',' :: ("QUFB" : String).data)
      = (("QUFB" : String).data.takeWhile (fun c => c != ',')) :=
  ⟨by decide, image_decoder_takes_field_between_commas _ _ (by decide)⟩

/-- C6: for a truthy image string, a failing base64 decode — and
likewise a failing image-structure parse of the decoded bytes — makes
the request fail with the decode-error response (the generic 500 error
body produced by the `except Exception` clause, the realization of
`ImageDecodeError`), never silently proceeding. -/
theorem image_decode_failure_propagates {Img : Type} (ext : Externals Img)
    (req : RequestData) (s : String) (himg : req.image = some s)
    (hs : pyTruthy s = true) :
    (ext.b64decode (pyImageHeaderStrip s) = none →
      analyze_issue ext req = ApiResult.genericError "Error"
      ∧ statusOf (analyze_issue ext req) = 500)
    ∧ (∀ bs, ext.b64decode (pyImageHeaderStrip s) = some bs → ext.imageOpen bs = none →
      analyze_issue ext req = ApiResult.genericError "Error"
      ∧ statusOf (analyze_issue ext req) = 500) := by
  have hval : (pyTruthy req.description || pyTruthyOpt req.image) = true := by
    simp [pyTruthyOpt, himg, hs]
  constructor
  · intro hb
    have hres : analyze_issue ext req = ApiResult.genericError "Error" := by
      rw [analyze_issue_past_validation ext req hval]
      have hcore : analyze_core ext req = Except.error Fail.imageDecodeError := by
        simp [analyze_core, buildPromptParts, himg, hs, hb]
      rw [hcore]
      rfl
    exact ⟨hres, by rw [hres]; rfl⟩
  · intro bs hb ho
    have hres : analyze_issue ext req = ApiResult.genericError "Error" := by
      rw [analyze_issue_past_validation ext req hval]
      have hcore : analyze_core ext req = Except.error Fail.imageDecodeError := by
        simp [analyze_core, buildPromptParts, himg, hs, hb, ho]
      rw [hcore]
      rfl
    exact ⟨hres, by rw [hres]; rfl⟩

/-- C6 witness: a base64 failure and an image-open failure, each on a
concrete request, both yield the generic 500 error body. -/
theorem image_decode_failure_propagates_witness :
    analyze_issue extDemo ⟨"", some "img"⟩ = ApiResult.genericError "Error"
    ∧ analyze_issue extImgFail ⟨"", some "img"⟩ = ApiResult.genericError "Error" :=
  ⟨((image_decode_failure_propagates extDemo ⟨"", some "img"⟩ "img" rfl rfl).1 rfl).1,
   ((image_decode_failure_propagates extImgFail ⟨"", some "img"⟩ "img" rfl rfl).2
     [] rfl rfl).1⟩

/-- C7: with a non-empty description and no image the prompt builder
emits exactly one part, the template with the description appended under
the "Citizen's description:" marker; with a decodable image supplied,
the decoded image part follows as the second part. -/
theorem prompt_builder_parts {Img : Type} (ext : Externals Img) (req : RequestData)
    (hd : pyTruthy req.description = true) :
    (req.image = none →
      buildPromptParts ext req = Except.ok
        [PromptPart.text (ANALYSIS_PROMPT ++ "\n\nCitizen\x27s description: "
          ++ req.description)])
    ∧ (∀ s bs img, req.image = some s → pyTruthy s = true →
      ext.b64decode (pyImageHeaderStrip s) = some bs → ext.imageOpen bs = some img →
      buildPromptParts ext req = Except.ok
        [PromptPart.text (ANALYSIS_PROMPT ++ "\n\nCitizen\x27s description: "
          ++ req.description),
         PromptPart.image img]) := by
  constructor
  · intro hnone
    simp [buildPromptParts, hnone, hd]
  · intro s bs img himg hs hb ho
    simp [buildPromptParts, himg, hd, hs, hb, ho]

/-- C7 witness: a description-only request yields one text part; a
request with an image yields the text part then the image part. -/
theorem prompt_builder_parts_witness :
    buildPromptParts extDemo ⟨"pothole", none⟩ = Except.ok
      [PromptPart.text (ANALYSIS_PROMPT ++ "\n\nCitizen\x27s description: " ++ "pothole")]
    ∧ buildPromptParts extOk ⟨"pothole", some "im"⟩ = Except.ok
      [PromptPart.text (ANALYSIS_PROMPT ++ "\n\nCitizen\x27s description: " ++ "pothole"),
       PromptPart.image ()] :=
  ⟨(prompt_builder_parts extDemo ⟨"pothole", none⟩ rfl).1 rfl,
   (prompt_builder_parts extOk ⟨"pothole", some "im"⟩ rfl).2 "im" [] () rfl rfl rfl rfl⟩

/-- C8: every successful report echoes the full original description in
`citizen_description` and its first at most 200 characters in
`location.description`. -/
theorem report_echoes_description {Img : Type} (ext : Externals Img)
    (req : RequestData) (rep : Report)
    (h : analyze_issue ext req = ApiResult.ok rep) :
    rep.citizen_description = req.description
    ∧ rep.location.description = pyTake req.description 200
    ∧ rep.location.description.data.length ≤ 200 := by
  have hshape : ∃ kvs, rep = buildReport ext req.description kvs := by
    unfold analyze_issue at h
    split at h
    · exact absurd h (by simp)
    · cases hc : analyze_core ext req with
      | ok r =>
        rw [hc] at h
        have hr : r = rep := by injection h
        obtain ⟨kvs, hk⟩ := analyze_core_ok_shape ext req r hc
        exact ⟨kvs, by rw [← hr, hk]⟩
      | error e =>
        rw [hc] at h
        cases e <;> simp [failToResult] at h
  obtain ⟨kvs, hk⟩ := hshape
  subst hk
  refine ⟨rfl, rfl, ?_⟩
  show (req.description.data.take 200).length ≤ 200
  exact List.length_take_le _ _

/-- C8 witness: a successful run on description `"hello"`. -/
theorem report_echoes_description_witness :
    (buildReport extOk "hello" []).citizen_description = "hello"
    ∧ (buildReport extOk "hello" []).location.description = pyTake "hello" 200
    ∧ (buildReport extOk "hello" []).location.description.data.length ≤ 200 :=
  report_echoes_description extOk ⟨"hello", none⟩ (buildReport extOk "hello" []) rfl

/-- C9: on the raw reply `"Sure! {\"priority_score\": 77} Thanks."` the
extractor keeps `{"priority_score": 77}`, parsing yields that one-member
object, and the normalized report has priority score 77 with every other
AI-derived field at its documented default. -/
theorem extractor_roundtrip_priority_77 :
    extractCandidate "Sure! \x7b\"priority_score\": 77\x7d Thanks."
      = "\x7b\"priority_score\": 77\x7d"
    ∧ jsonParse "\x7b\"priority_score\": 77\x7d"
      = some (Json.obj [(jstr "priority_score", Json.num (jstr "77"))])
    ∧ (buildReport extDemo "d" [(jstr "priority_score", Json.num (jstr "77"))]).priority_score
      = Json.num (jstr "77")
    ∧ (buildReport extDemo "d"
        [(jstr "priority_score", Json.num (jstr "77"))]).assigned_department
      = Json.str (jstr "Municipal Services")
    ∧ (buildReport extDemo "d"
        [(jstr "priority_score", Json.num (jstr "77"))]).recommended_actions
      = Json.arr []
    ∧ (buildReport extDemo "d" [(jstr "priority_score", Json.num (jstr "77"))]).safety_warnings
      = Json.arr []
    ∧ (buildReport extDemo "d"
        [(jstr "priority_score", Json.num (jstr "77"))]).issue_classification
      = Json.obj []
    ∧ (buildReport extDemo "d" [(jstr "priority_score", Json.num (jstr "77"))]).ai_analysis
      = Json.obj []
    ∧ (buildReport extDemo "d" [(jstr "priority_score", Json.num (jstr "77"))]).ai_reasoning
      = Json.str [] :=
  ⟨rfl, rfl, rfl, rfl, rfl, rfl, rfl, rfl, rfl⟩

/-- C10: when the candidate parses as JSON but the value is not an
object, the first `.get` attribute access raises and the request ends in
the plain 500 error body — the one without a `raw_response` field — not
in the `MalformedAIResponse` body. -/
theorem nonobject_parse_generic_500 {Img : Type} (ext : Externals Img)
    (req : RequestData) (parts : List (PromptPart Img)) (raw : String) (v : Json)
    (hval : (pyTruthy req.description || pyTruthyOpt req.image) = true)
    (hparts : buildPromptParts ext req = Except.ok parts)
    (hgen : ext.generate generation_config parts = some raw)
    (hparse : jsonParse (extractCandidate raw) = some v)
    (hobj : v.isObj = false) :
    analyze_issue ext req = ApiResult.genericError "Error"
    ∧ statusOf (analyze_issue ext req) = 500 := by
  have hres : analyze_issue ext req = ApiResult.genericError "Error" := by
    rw [analyze_issue_past_validation ext req hval]
    have hcore : analyze_core ext req = Except.error Fail.attributeError := by
      simp only [analyze_core, hparts, hgen, hparse]
      cases v with
      | obj kvs => simp [Json.isObj] at hobj
      | null => rfl
      | bool b => rfl
      | num l => rfl
      | str l => rfl
      | arr l => rfl
    rw [hcore]
    rfl
  exact ⟨hres, by rw [hres]; rfl⟩

/-- C10 witness: a top-level JSON array reply ends in the plain 500. -/
theorem nonobject_parse_generic_500_witness :
    analyze_issue extRawArr ⟨"d", none⟩ = ApiResult.genericError "Error"
    ∧ statusOf (analyze_issue extRawArr ⟨"d", none⟩) = 500 :=
  nonobject_parse_generic_500 extRawArr ⟨"d", none⟩
    [PromptPart.text (ANALYSIS_PROMPT ++ "\n\nCitizen\x27s description: " ++ "d")]
    "[1]" (Json.arr [Json.num (jstr "1")]) rfl rfl rfl rfl rfl
